import Mathlib

/-!
Verification of the shopify-gql-helper throttle controller and query
execution orchestrator.

The Python sources are shallowly embedded:
* `ThrottleController` mirrors the dataclass of `throttle.py`; real-valued
  fields (`float` in Python) become `ℚ`, the wall clock becomes an explicit
  `now : ℚ` argument to every operation that reads `time.monotonic()`.
* `before_request` is modelled one loop pass at a time (`admitPass`) plus a
  driver (`beforeRequestGo`) that consumes an explicit list of wake-up
  instants, one per iteration of the `while True` loop; `cond.wait` either
  times out or is notified, and in both cases the loop re-runs at some later
  instant, which is exactly what the list of instants encodes.
* `after_response` mirrors `throttle.py` line by line; the throttle-status
  dictionary becomes a record of three optional rationals, with `none` for
  the falsy (`None` / empty) dictionary.
* `execute` of `client.py` becomes `executeFrom`, a fuel-indexed recursion
  over the attempt counter that records an event trace (admissions, backoff
  sleeps, settle calls) and returns the parsed body or the raised error.
-/

namespace ShopifyGQL

/-- Bucket state of `ThrottleController` (`throttle.py`).  Python `float`
fields are embedded as `ℚ`; the `lock`/`cond` synchronisation fields carry
no data and are dropped. -/
structure ThrottleController where
  available : ℚ
  restore_rate : ℚ
  max_available : ℚ
  last_update : ℚ
  total_calls : ℕ
  total_cost : ℤ
deriving DecidableEq

/-- Python `max` on two numbers (kernel-reducible form of `max` on `ℚ`). -/
def pyMax (a b : ℚ) : ℚ := if a ≤ b then b else a

/-- Python `min` on two numbers (kernel-reducible form of `min` on `ℚ`). -/
def pyMin (a b : ℚ) : ℚ := if a ≤ b then a else b

/-- The dataclass defaults: `available=1000.0, restore_rate=100.0,
max_available=2000.0, last_update=time.monotonic()`. -/
def defaultController (now : ℚ) : ThrottleController :=
  ⟨1000, 100, 2000, now, 0, 0⟩

/-- Constructing `ThrottleController(...)`: every field assignment goes
through `__setattr__`, which raises `ValueError` when `restore_rate ≤ 0`
(`throttle.py` lines 40-43). -/
def mkThrottleController (available restore_rate max_available last_update : ℚ) :
    Except String ThrottleController :=
  if restore_rate ≤ 0 then Except.error "restore_rate must be positive"
  else Except.ok ⟨available, restore_rate, max_available, last_update, 0, 0⟩

/-- `ThrottleController._refill` at instant `now`:
`available = min(max_available, available + elapsed * max(restore_rate, 0))`
and `last_update = now`, both only when `elapsed > 0`. -/
def refill (s : ThrottleController) (now : ℚ) : ThrottleController :=
  let elapsed := now - s.last_update
  if 0 < elapsed then
    { s with
      available := pyMin s.max_available (s.available + elapsed * pyMax s.restore_rate 0)
      last_update := now }
  else s

/-- `avg_cost = (total_cost / total_calls) if total_calls else 0`
(`throttle.py` line 74). -/
def avgCost (s : ThrottleController) : ℚ :=
  if s.total_calls = 0 then 0 else (s.total_cost : ℚ) / (s.total_calls : ℚ)

/-- `target = max(min_bucket, avg_cost if avg_cost > min_bucket else 0)`
(`throttle.py` line 76). -/
def targetOf (s : ThrottleController) (min_bucket : ℤ) : ℚ :=
  pyMax (min_bucket : ℚ) (if (min_bucket : ℚ) < avgCost s then avgCost s else 0)

/-- `min_sleep` clamping at the top of `before_request`
(`if min_sleep < 0: min_sleep = 1.0`). -/
def effMinSleep (min_sleep : ℚ) : ℚ :=
  if min_sleep < 0 then 1 else min_sleep

/-- One pass of the `while True` loop of `before_request` at instant `now`
with an already-clamped minimum sleep `ms`: refill, compute the target,
admit (`none`) when `available ≥ target`, otherwise report the computed
sleep duration `max(ms, (target - available) / restore_rate)`. -/
def admitPass (s : ThrottleController) (min_bucket : ℤ) (ms : ℚ) (now : ℚ) :
    ThrottleController × Option ℚ :=
  let s' := refill s now
  if targetOf s' min_bucket ≤ s'.available then (s', none)
  else (s', some (pyMax ms ((targetOf s' min_bucket - s'.available) / s'.restore_rate)))

/-- The `before_request` loop, driven by the list of instants at which its
iterations run (first check at the head instant; each `cond.wait` ends by
timeout or notification at the next instant).  Returns the state at
admission together with the sleep durations that were computed, or `none`
when the modelled schedule ends with the caller still blocked. -/
def beforeRequestGo (min_bucket : ℤ) (ms : ℚ) :
    List ℚ → ThrottleController → List ℚ → Option (ThrottleController × List ℚ)
  | [], _, _ => none
  | now :: rest, s, acc =>
    match admitPass s min_bucket ms now with
    | (s', none) => some (s', acc)
    | (s', some d) => beforeRequestGo min_bucket ms rest s' (acc ++ [d])

/-- `ThrottleController.before_request(min_bucket, min_sleep)` run over the
iteration schedule `times`. -/
def before_request (s : ThrottleController) (min_bucket : ℤ) (min_sleep : ℚ)
    (times : List ℚ) : Option (ThrottleController × List ℚ) :=
  beforeRequestGo min_bucket (effMinSleep min_sleep) times s []

/-- The `extensions.cost.throttleStatus` dictionary: three optional numeric
fields. -/
structure ThrottleStatus where
  currentlyAvailable : Option ℚ
  restoreRate : Option ℚ
  maximumAvailable : Option ℚ
deriving DecidableEq

/-- `ThrottleController.after_response(throttle_status, cost)` at instant
`now` (`throttle.py` lines 100-122): a truthy status overwrites `available`
and `max_available` when reported, overwrites `restore_rate` only when the
reported rate is positive, and stamps `last_update`; a reported cost bumps
the counters.  (`notify_all` carries no state.) -/
def after_response (s : ThrottleController) (throttle_status : Option ThrottleStatus)
    (cost : Option ℤ) (now : ℚ) : ThrottleController :=
  let s1 :=
    match throttle_status with
    | none => s
    | some t =>
      let sa := match t.currentlyAvailable with
        | some ca => { s with available := ca }
        | none => s
      let sb := match t.restoreRate with
        | some rr => if 0 < rr then { sa with restore_rate := rr } else sa
        | none => sa
      let sc := match t.maximumAvailable with
        | some ma => { sb with max_available := ma }
        | none => sb
      { sc with last_update := now }
  match cost with
  | some c => { s1 with total_calls := s1.total_calls + 1, total_cost := s1.total_cost + c }
  | none => s1

/-- Every mutation the controller performs on its bucket state:
`before_request` only mutates through `_refill`, `after_response` as
embedded. -/
inductive ThStep : ThrottleController → ThrottleController → Prop
  | refill (s : ThrottleController) (now : ℚ) : ThStep s (refill s now)
  | settle (s : ThrottleController) (ts : Option ThrottleStatus) (cost : Option ℤ)
      (now : ℚ) : ThStep s (after_response s ts cost now)

/-- Reachability under any sequence of controller operations. -/
def ThReach : ThrottleController → ThrottleController → Prop :=
  Relation.ReflTransGen ThStep

/-- Python string slicing `s[:n]`: the first `n` code points.  (`String.data`
is the code-point list, matching Python character indexing.) -/
def strTake (s : String) (n : ℕ) : String := String.mk (s.data.take n)

/-- One entry of the GraphQL `errors` list, as read by `client.py`:
`err.get("extensions", {}).get("code")` and `err.get("message")`. -/
structure GQLErrorEntry where
  code : Option String
  message : Option String
deriving DecidableEq

/-- The `extensions.cost` block (`{}` when absent is represented by `none`
at the `Body` level). -/
structure CostInfo where
  throttleStatus : Option ThrottleStatus
  actualQueryCost : Option ℤ
  requestedQueryCost : Option ℤ
deriving DecidableEq

/-- A successfully parsed JSON body, restricted to the fields `execute`
reads: the cost-extension block and the `errors` key (`none` when the key
is absent; `some []` when present and empty). -/
structure Body where
  cost : Option CostInfo
  errors : Option (List GQLErrorEntry)
deriving DecidableEq

/-- A transport response: `status_code` (absent attribute modelled as
`none`), raw `text`, and `body = none` when `resp.json()` raises. -/
structure TResponse where
  status_code : Option ℤ
  text : String
  body : Option Body
deriving DecidableEq

/-- Outcome of one `session.transport.post(...)` call. -/
inductive TransportResult where
  | exc (msg : String)
  | resp (r : TResponse)
deriving DecidableEq

/-- Externally observable throttle interactions of `execute`:
`before_request` admissions, `time.sleep` backoffs and `after_response`
settle calls with the arguments passed. -/
inductive ThrottleEv where
  | admission
  | sleep (d : ℕ)
  | settle (ts : Option ThrottleStatus) (cost : Option ℤ)
deriving DecidableEq

/-- The raised `ShopifyGQLError` (`errors.py`): the stored message is the
≤300-character snippet, prefixed with the status code when given. -/
structure GQLFailure where
  message : String
  status_code : Option ℤ
deriving DecidableEq

/-- `ShopifyGQLError.__init__` (`errors.py` lines 10-17). -/
def mkFailure (message : String) (status_code : Option ℤ) : GQLFailure :=
  let snippet := if message.length ≤ 300 then message else strTake message 300
  match status_code with
  | some c => ⟨"HTTP " ++ toString c ++ ": " ++ snippet, some c⟩
  | none => ⟨snippet, none⟩

/-- `cost = cost_info.get("actualQueryCost") or cost_info.get("requestedQueryCost")`
(`client.py` line 74): Python `or` falls through on a falsy left operand,
so both a missing and a zero `actualQueryCost` select `requestedQueryCost`. -/
def extractCost (ci : CostInfo) : Option ℤ :=
  match ci.actualQueryCost with
  | some a => if a = 0 then ci.requestedQueryCost else some a
  | none => ci.requestedQueryCost

/-- The throttled-error predicate of `client.py` lines 79-83:
`err.extensions.code == "THROTTLED" or err.message == "Throttled"`. -/
def isThrottledErr (e : GQLErrorEntry) : Bool :=
  e.code == some "THROTTLED" || e.message == some "Throttled"

/-- Rendering of one error entry, abstracting Python `str` of the dict. -/
def strOfErr (e : GQLErrorEntry) : String :=
  let f : Option String → String := fun o => match o with
    | none => "None"
    | some s => s
  "code=" ++ f e.code ++ " message=" ++ f e.message

/-- Rendering of the error list, abstracting `str(errors)` at
`client.py` line 86. -/
def strOfErrors (errs : List GQLErrorEntry) : String :=
  String.intercalate ", " (errs.map strOfErr)

/-- The empty `cost_info` dictionary. -/
def emptyCostInfo : CostInfo := ⟨none, none, none⟩

/-- The attempt loop of `execute` (`client.py` lines 48-91), from attempt
index `attempt` with `fuel` loop iterations left (at top level
`fuel = (retries + 1).toNat`, the size of `range(retries + 1)`).  `script`
gives the transport outcome of each attempt.  Returns the throttle-event
trace paired with the parsed body or the raised error. -/
def executeFrom (retries : ℤ) (script : ℕ → TransportResult) :
    ℕ → ℕ → List ThrottleEv × Except GQLFailure Body
  | 0, _ => ([], Except.error (mkFailure "Max retries exceeded" none))
  | fuel + 1, attempt =>
    match script attempt with
    | TransportResult.exc m => ([ThrottleEv.admission], Except.error (mkFailure m none))
    | TransportResult.resp r =>
      match r.status_code with
      | none =>
        ([ThrottleEv.admission],
          Except.error (mkFailure "Transport response missing status_code" none))
      | some status =>
        if 500 ≤ status ∧ (attempt : ℤ) < retries then
          let rest := executeFrom retries script fuel (attempt + 1)
          (ThrottleEv.admission :: ThrottleEv.sleep (2 ^ attempt) :: rest.1, rest.2)
        else if status ≠ 200 then
          ([ThrottleEv.admission], Except.error (mkFailure (strTake r.text 300) (some status)))
        else
          match r.body with
          | none =>
            ([ThrottleEv.admission],
              Except.error (mkFailure (strTake r.text 300) (some status)))
          | some data =>
            let ci := data.cost.getD emptyCostInfo
            let settleEv := ThrottleEv.settle ci.throttleStatus (extractCost ci)
            match data.errors with
            | some errs =>
              if errs.any isThrottledErr ∧ (attempt : ℤ) < retries then
                let rest := executeFrom retries script fuel (attempt + 1)
                (ThrottleEv.admission :: settleEv :: rest.1, rest.2)
              else
                (ThrottleEv.admission :: [settleEv],
                  Except.error (mkFailure (strTake (strOfErrors errs) 300) none))
            | none => (ThrottleEv.admission :: [settleEv], Except.ok data)

/-- `execute(session, query, variables, timeout, retries)`: the payload and
headers are built once before the loop (so every attempt reuses the same
query and variables), then the attempt loop runs over `range(retries + 1)`. -/
def execute (retries : ℤ) (script : ℕ → TransportResult) :
    List ThrottleEv × Except GQLFailure Body :=
  executeFrom retries script (retries + 1).toNat 0

/-- Is an event an admission (`before_request` call)? -/
def isAdmitEv : ThrottleEv → Bool
  | ThrottleEv.admission => true
  | _ => false

/-- Number of attempts made: one `before_request` call heads every attempt. -/
def attemptsOf (l : List ThrottleEv) : ℕ := l.countP isAdmitEv

/-- The backoff sleep durations of a trace, in order. -/
def sleepsOf (l : List ThrottleEv) : List ℕ :=
  l.filterMap fun e => match e with
    | ThrottleEv.sleep d => some d
    | _ => none

/-- The `after_response` calls of a trace, with their arguments. -/
def settlesOf (l : List ThrottleEv) : List (Option ThrottleStatus × Option ℤ) :=
  l.filterMap fun e => match e with
    | ThrottleEv.settle ts c => some (ts, c)
    | _ => none

deriving instance DecidableEq for Except

/-- A server-overload transport outcome: a response whose status is ≥ 500. -/
def isOverloadB : TransportResult → Bool
  | TransportResult.resp r =>
    match r.status_code with
    | some s => if 500 ≤ s then true else false
    | none => false
  | TransportResult.exc _ => false

/-- The at-rest bucket invariant of the spec: `0 ≤ available ≤ maxAvailable`. -/
def bucketInv (s : ThrottleController) : Prop :=
  0 ≤ s.available ∧ s.available ≤ s.max_available

/-- A consistent authoritative snapshot: either it reports neither
`currentlyAvailable` nor `maximumAvailable`, or it reports both with
`0 ≤ currentlyAvailable ≤ maximumAvailable`. -/
def GoodStatus (t : ThrottleStatus) : Prop :=
  (t.currentlyAvailable = none ∧ t.maximumAvailable = none) ∨
  (∃ a m, t.currentlyAvailable = some a ∧ t.maximumAvailable = some m ∧ 0 ≤ a ∧ a ≤ m)

/-- Controller operations whose settle inputs carry only consistent
snapshots. -/
inductive GoodStep : ThrottleController → ThrottleController → Prop
  | refill (s : ThrottleController) (now : ℚ) : GoodStep s (refill s now)
  | settle (s : ThrottleController) (ts : Option ThrottleStatus) (cost : Option ℤ)
      (now : ℚ) (h : ∀ t, ts = some t → GoodStatus t) :
      GoodStep s (after_response s ts cost now)

/-- Reachability under consistent-snapshot operations. -/
def GoodReach : ThrottleController → ThrottleController → Prop :=
  Relation.ReflTransGen GoodStep

/-! Concrete scenario inputs used by the per-claim counterexamples and
witnesses. -/

/-- Bucket state of `test_high_cost_not_dropped_by_light_request` at the
moment of its `before_request` call: `available=449, restore_rate=100`
after two settled costs 450 and 50. -/
def c1State : ThrottleController := ⟨449, 100, 2000, 0, 2, 500⟩

/-- The two settles of `test_high_cost_not_dropped_by_light_request`
(`after_response(None, cost=450)` then `after_response(None, cost=50)`)
applied to a fresh controller. -/
def c1Counters : ThrottleController :=
  after_response (after_response (defaultController 0) none (some 450) 0) none (some 50) 0

/-- A fresh controller settled with a snapshot reporting only
`maximumAvailable = 500`. -/
def c2Broken : ThrottleController :=
  after_response (defaultController 0) (some ⟨none, none, some 500⟩) none 0

/-- A body with no cost block and no errors. -/
def c3Body : Body := ⟨none, none⟩

/-- Transport script: one 500 response, then a 200 success. -/
def c3Script : ℕ → TransportResult := fun i =>
  if i = 0 then TransportResult.resp ⟨some 500, "err", none⟩
  else TransportResult.resp ⟨some 200, "", some c3Body⟩

/-- One GraphQL error entry with `extensions.code == "THROTTLED"`. -/
def c4Errs : List GQLErrorEntry := [⟨some "THROTTLED", none⟩]

/-- A 200 body carrying a throttled application error and no cost block. -/
def c4Body : Body := ⟨none, some c4Errs⟩

/-- Transport script returning the throttled-error 200 response forever. -/
def c4Script : ℕ → TransportResult := fun _ =>
  TransportResult.resp ⟨some 200, "", some c4Body⟩

/-- A controller in the spec's example scenario
`available=25, restoreRate=1000, minBucket=50`. -/
def c6State : ThrottleController := ⟨25, 1000, 2000, 0, 0, 0⟩

/-- Transport script returning a 404 response forever. -/
def c7Script : ℕ → TransportResult := fun _ =>
  TransportResult.resp ⟨some 404, "missing", none⟩

/-- Cost block with `actualQueryCost = 0` and `requestedQueryCost = 5`. -/
def c8Ci : CostInfo := ⟨none, some 0, some 5⟩

/-- A 200 body whose cost block is `c8Ci`, with no errors. -/
def c8Body : Body := ⟨some c8Ci, none⟩

/-- Transport script returning the `c8Body` success response forever. -/
def c8Script : ℕ → TransportResult := fun _ =>
  TransportResult.resp ⟨some 200, "", some c8Body⟩

/-- Cost block with a nonzero `actualQueryCost = 7` next to
`requestedQueryCost = 9`. -/
def c8CiNonzero : CostInfo := ⟨none, some 7, some 9⟩

/-- A 200 body whose cost block is `c8CiNonzero`. -/
def c8BodyNonzero : Body := ⟨some c8CiNonzero, none⟩

/-- Transport script returning the `c8BodyNonzero` success response. -/
def c8ScriptNonzero : ℕ → TransportResult := fun _ =>
  TransportResult.resp ⟨some 200, "", some c8BodyNonzero⟩

/-- The bucket of `test_parallel_waiters_only_one_passes` before the settle:
`available=0, restore_rate=1`. -/
def c9Start : ThrottleController := ⟨0, 1, 2000, 0, 0, 0⟩

/-- That bucket after the single `after_response({"currentlyAvailable": 50})`. -/
def c9Settled : ThrottleController :=
  after_response c9Start (some ⟨some 50, none, none⟩) none 0

/-- The state in which the first waiter of the C9 scenario is admitted. -/
def c9After : ThrottleController :=
  ((before_request c9Settled 50 0 [0]).getD (c9Settled, [])).1

/-- Transport script that always fails at the transport level (never
reached when the attempt loop body is not entered). -/
def c10Script : ℕ → TransportResult := fun _ => TransportResult.exc "boom"

/-! General lemmas about the embedded operations. -/

theorem pyMax_eq_max (a b : ℚ) : pyMax a b = max a b := (max_def a b).symm

theorem pyMin_eq_min (a b : ℚ) : pyMin a b = min a b := (min_def a b).symm

theorem strTake_length_le (s : String) (n : ℕ) : (strTake s n).length ≤ n := by
  rw [strTake, String.length_mk]
  exact List.length_take_le _ _

theorem refill_restore_rate (s : ThrottleController) (now : ℚ) :
    (refill s now).restore_rate = s.restore_rate := by
  rw [refill]
  split <;> rfl

theorem refill_max_available (s : ThrottleController) (now : ℚ) :
    (refill s now).max_available = s.max_available := by
  rw [refill]
  split <;> rfl


/-! Claim C10: negative retries. -/

/-- Claim C10: for every call of `execute` with a negative `retries` value
the attempt loop body is never entered — no admission check, no transport
request, no settle — and `execute` raises the generic "Max retries
exceeded" error, leaving the throttle state untouched (the event trace is
empty). -/
theorem C10_negative_retries (retries : ℤ) (h : retries < 0)
    (script : ℕ → TransportResult) :
    execute retries script = ([], Except.error (mkFailure "Max retries exceeded" none)) ∧
    attemptsOf (execute retries script).1 = 0 ∧
    settlesOf (execute retries script).1 = [] := by
  have hz : (retries + 1).toNat = 0 := by omega
  rw [execute, hz]
  exact ⟨rfl, rfl, rfl⟩

/-- Witness for C10 at `retries = -1`. -/
theorem C10_negative_retries_witness :
    execute (-1) c10Script = ([], Except.error (mkFailure "Max retries exceeded" none)) ∧
    attemptsOf (execute (-1) c10Script).1 = 0 ∧
    settlesOf (execute (-1) c10Script).1 = [] :=
  C10_negative_retries (-1) (by decide) c10Script

/-! Claim C7: non-success, non-retryable status is fatal at once. -/

/-- Claim C7: whenever the response status is present but is neither 200
nor a retryable `≥ 500` with attempts remaining, `execute` raises
immediately — regardless of how many attempts remain — and the error
carries the status code and the body snippet truncated to at most 300
characters. -/
theorem C7_protocol_error_fatal (retries : ℤ) (script : ℕ → TransportResult)
    (fuel attempt : ℕ) (r : TResponse) (status : ℤ)
    (hs : script attempt = TransportResult.resp r)
    (hstat : r.status_code = some status)
    (h200 : status ≠ 200)
    (hnr : ¬(500 ≤ status ∧ (attempt : ℤ) < retries)) :
    executeFrom retries script (fuel + 1) attempt =
      ([ThrottleEv.admission],
        Except.error (mkFailure (strTake r.text 300) (some status))) ∧
    (mkFailure (strTake r.text 300) (some status)).status_code = some status ∧
    (strTake r.text 300).length ≤ 300 := by
  refine ⟨?_, ?_, strTake_length_le _ _⟩
  · rcases r with ⟨rsc, rtext, rbody⟩
    dsimp only at hstat
    subst hstat
    simp only [executeFrom, hs]
    rw [if_neg hnr, if_pos h200]
  · simp [mkFailure]

/-- Witness for C7: a 404 at attempt 0 of a run with five retries still
available is fatal at once. -/
theorem C7_protocol_error_fatal_witness :
    executeFrom 5 c7Script (5 + 1) 0 =
      ([ThrottleEv.admission],
        Except.error (mkFailure (strTake "missing" 300) (some 404))) ∧
    (mkFailure (strTake "missing" 300) (some 404)).status_code = some 404 ∧
    (strTake "missing" 300).length ≤ 300 :=
  C7_protocol_error_fatal 5 c7Script 5 0 ⟨some 404, "missing", none⟩ 404
    rfl rfl (by decide) (by decide)


/-! Claim C8: cost extraction for the settle call. -/

/-- Counterexample to C8: with `actualQueryCost` present and equal to 0 and
`requestedQueryCost = 5`, the settle call receives 5, not the present
`actualQueryCost` value 0 — Python `or` treats 0 as absent. -/
theorem C8_counterexample :
    c8Ci.actualQueryCost = some 0 ∧
    settlesOf (execute 0 c8Script).1 = [(none, some 5)] ∧
    ¬settlesOf (execute 0 c8Script).1 = [(none, some 0)] := by
  refine ⟨rfl, by decide, by decide⟩

/-- Claim C8 (amended): the cost passed to settle is `actualQueryCost`
whenever it is present and nonzero; when it is absent or equal to 0 (falsy
under Python `or`), `requestedQueryCost` is used as the fallback. -/
theorem C8_cost_extraction (retries : ℤ) (script : ℕ → TransportResult)
    (fuel attempt : ℕ) (r : TResponse) (data : Body) (ci : CostInfo)
    (hs : script attempt = TransportResult.resp r)
    (hstat : r.status_code = some 200)
    (hbody : r.body = some data)
    (hnoerr : data.errors = none)
    (hci : data.cost = some ci) :
    executeFrom retries script (fuel + 1) attempt =
      ([ThrottleEv.admission, ThrottleEv.settle ci.throttleStatus (extractCost ci)],
        Except.ok data) ∧
    (∀ c, ci.actualQueryCost = some c → c ≠ 0 → extractCost ci = some c) ∧
    ((ci.actualQueryCost = none ∨ ci.actualQueryCost = some 0) →
      extractCost ci = ci.requestedQueryCost) := by
  refine ⟨?_, ?_, ?_⟩
  · rcases r with ⟨rsc, rtext, rbody⟩
    dsimp only at hstat hbody
    subst hstat
    subst hbody
    simp only [executeFrom, hs, hci, hnoerr, Option.getD_some]
    norm_num
  · intro c hc hne
    rw [extractCost, hc]
    simp [hne]
  · rintro (hc | hc) <;> rw [extractCost, hc]
    simp

/-- Witness for the amended C8: a present nonzero `actualQueryCost = 7` is
the cost settled, even next to `requestedQueryCost = 9`. -/
theorem C8_cost_extraction_witness :
    executeFrom 0 c8ScriptNonzero (0 + 1) 0 =
      ([ThrottleEv.admission,
         ThrottleEv.settle c8CiNonzero.throttleStatus (extractCost c8CiNonzero)],
        Except.ok c8BodyNonzero) ∧
    extractCost c8CiNonzero = some 7 :=
  have h := C8_cost_extraction 0 c8ScriptNonzero 0 0
    ⟨some 200, "", some c8BodyNonzero⟩ c8BodyNonzero c8CiNonzero rfl rfl rfl rfl rfl
  ⟨h.1, h.2.1 7 rfl (by decide)⟩

/-! Claim C4: application-error classification. -/

/-- Claim C4: when a parsed 200 body carries an application error list, a
throttling signal (code `THROTTLED` or message `Throttled`) with attempts
remaining makes `execute` continue with the next attempt of the same run —
the step contributes no sleep event beyond the admission itself; without a
throttling signal, or with attempts exhausted, `execute` raises an error
carrying the ≤300-character serialization of the error list. -/
theorem C4_application_errors (retries : ℤ) (script : ℕ → TransportResult)
    (fuel attempt : ℕ) (r : TResponse) (data : Body) (errs : List GQLErrorEntry)
    (hs : script attempt = TransportResult.resp r)
    (hstat : r.status_code = some 200)
    (hbody : r.body = some data)
    (herrs : data.errors = some errs) :
    ((errs.any isThrottledErr = true ∧ (attempt : ℤ) < retries) →
      executeFrom retries script (fuel + 1) attempt =
        (ThrottleEv.admission ::
            ThrottleEv.settle (data.cost.getD emptyCostInfo).throttleStatus
              (extractCost (data.cost.getD emptyCostInfo)) ::
            (executeFrom retries script fuel (attempt + 1)).1,
          (executeFrom retries script fuel (attempt + 1)).2) ∧
      sleepsOf [ThrottleEv.admission,
        ThrottleEv.settle (data.cost.getD emptyCostInfo).throttleStatus
          (extractCost (data.cost.getD emptyCostInfo))] = []) ∧
    ((errs.any isThrottledErr = false ∨ retries ≤ (attempt : ℤ)) →
      executeFrom retries script (fuel + 1) attempt =
        ([ThrottleEv.admission,
           ThrottleEv.settle (data.cost.getD emptyCostInfo).throttleStatus
             (extractCost (data.cost.getD emptyCostInfo))],
          Except.error (mkFailure (strTake (strOfErrors errs) 300) none)) ∧
      (mkFailure (strTake (strOfErrors errs) 300) none).message.length ≤ 300) := by
  rcases r with ⟨rsc, rtext, rbody⟩
  dsimp only at hstat hbody
  subst hstat
  subst hbody
  constructor
  · intro hthr
    constructor
    · simp only [executeFrom, hs, herrs]
      norm_num [hthr.1, hthr.2]
    · rfl
  · intro hnot
    have hcond : ¬(errs.any isThrottledErr = true ∧ (attempt : ℤ) < retries) := by
      rcases hnot with hnot | hnot
      · exact fun hc => by rw [hnot] at hc; exact absurd hc.1 (by decide)
      · exact fun hc => absurd hc.2 (not_lt.mpr hnot)
    constructor
    · simp only [executeFrom, hs, herrs]
      rw [if_neg (by norm_num), if_neg (by norm_num), if_neg hcond]
    · rw [mkFailure]
      simp only [strTake_length_le _ 300, if_pos]


/-- Witness for C4: with one retry left the throttled 200 response makes the
run continue (no sleep contributed by the step); with attempts exhausted it
raises the truncated error-list failure. -/
theorem C4_application_errors_witness :
    (executeFrom 1 c4Script (1 + 1) 0 =
      (ThrottleEv.admission ::
          ThrottleEv.settle (c4Body.cost.getD emptyCostInfo).throttleStatus
            (extractCost (c4Body.cost.getD emptyCostInfo)) ::
          (executeFrom 1 c4Script 1 (0 + 1)).1,
        (executeFrom 1 c4Script 1 (0 + 1)).2) ∧
      sleepsOf [ThrottleEv.admission,
        ThrottleEv.settle (c4Body.cost.getD emptyCostInfo).throttleStatus
          (extractCost (c4Body.cost.getD emptyCostInfo))] = []) ∧
    (executeFrom 0 c4Script (0 + 1) 0 =
      ([ThrottleEv.admission,
         ThrottleEv.settle (c4Body.cost.getD emptyCostInfo).throttleStatus
           (extractCost (c4Body.cost.getD emptyCostInfo))],
        Except.error (mkFailure (strTake (strOfErrors c4Errs) 300) none)) ∧
      (mkFailure (strTake (strOfErrors c4Errs) 300) none).message.length ≤ 300) :=
  have h1 := C4_application_errors 1 c4Script 1 0
    ⟨some 200, "", some c4Body⟩ c4Body c4Errs rfl rfl rfl rfl
  have h2 := C4_application_errors 0 c4Script 0 0
    ⟨some 200, "", some c4Body⟩ c4Body c4Errs rfl rfl rfl rfl
  ⟨h1.1 ⟨by decide, by decide⟩, h2.2 (Or.inr (by decide))⟩

/-! Claim C3: retry budget and 5xx exponential backoff. -/

theorem attemptsOf_executeFrom_le (retries : ℤ) (script : ℕ → TransportResult) :
    ∀ fuel attempt, attemptsOf (executeFrom retries script fuel attempt).1 ≤ fuel := by
  intro fuel
  induction fuel with
  | zero => intro attempt; simp [executeFrom, attemptsOf]
  | succ f ih =>
    intro attempt
    rw [executeFrom]
    cases hs : script attempt with
    | exc m => simp [attemptsOf, isAdmitEv]
    | resp r =>
      rcases r with ⟨rsc, rtext, rbody⟩
      cases rsc with
      | none => simp [attemptsOf, isAdmitEv]
      | some status =>
        dsimp only
        by_cases h1 : 500 ≤ status ∧ (attempt : ℤ) < retries
        · rw [if_pos h1]
          have := ih (attempt + 1)
          simp [attemptsOf, List.countP_cons, isAdmitEv] at this ⊢
          omega
        · rw [if_neg h1]
          by_cases h2 : status ≠ 200
          · rw [if_pos h2]
            simp [attemptsOf, isAdmitEv]
          · rw [if_neg h2]
            cases rbody with
            | none => simp [attemptsOf, isAdmitEv]
            | some data =>
              rcases data with ⟨dcost, derrs⟩
              cases derrs with
              | none => simp [attemptsOf, List.countP_cons, isAdmitEv]
              | some errs =>
                dsimp only
                by_cases h3 : errs.any isThrottledErr = true ∧ (attempt : ℤ) < retries
                · rw [if_pos h3]
                  have := ih (attempt + 1)
                  simp [attemptsOf, List.countP_cons, isAdmitEv] at this ⊢
                  omega
                · rw [if_neg h3]
                  simp [attemptsOf, List.countP_cons, isAdmitEv]

theorem executeFrom_overload_ok (retries : ℤ) (script : ℕ → TransportResult)
    (body : Body) (t : String) (hb : body.errors = none) :
    ∀ (k attempt fuel : ℕ),
      (∀ i, i < k → isOverloadB (script (attempt + i)) = true) →
      script (attempt + k) = TransportResult.resp ⟨some 200, t, some body⟩ →
      (attempt : ℤ) + k ≤ retries → k < fuel →
      (executeFrom retries script fuel attempt).2 = Except.ok body ∧
      sleepsOf (executeFrom retries script fuel attempt).1 =
        (List.range k).map (fun i => 2 ^ (attempt + i)) ∧
      attemptsOf (executeFrom retries script fuel attempt).1 = k + 1 := by
  intro k
  induction k with
  | zero =>
    intro attempt fuel _ hsucc _ hfuel
    obtain ⟨f, rfl⟩ : ∃ f, fuel = f + 1 := ⟨fuel - 1, by omega⟩
    rw [Nat.add_zero] at hsucc
    rcases body with ⟨bcost, berrs⟩
    dsimp only at hb
    subst hb
    rw [executeFrom, hsucc]
    dsimp only
    rw [if_neg (by rintro ⟨h5, _⟩; norm_num at h5)]
    rw [if_neg (by intro h; exact h rfl)]
    exact ⟨rfl, rfl, rfl⟩
  | succ k ih =>
    intro attempt fuel hover hsucc hle hfuel
    obtain ⟨f, rfl⟩ : ∃ f, fuel = f + 1 := ⟨fuel - 1, by omega⟩
    have h0 : isOverloadB (script attempt) = true := by
      have := hover 0 (Nat.succ_pos k)
      rwa [Nat.add_zero] at this
    rw [executeFrom]
    cases hs : script attempt with
    | exc m => rw [hs] at h0; simp [isOverloadB] at h0
    | resp r =>
      rcases r with ⟨rsc, rtext, rbody⟩
      rw [hs] at h0
      cases rsc with
      | none => simp [isOverloadB] at h0
      | some status =>
        have h5 : (500 : ℤ) ≤ status := by
          simp only [isOverloadB] at h0
          by_cases h : (500 : ℤ) ≤ status
          · exact h
          · rw [if_neg h] at h0; cases h0
        dsimp only
        have hlt : (attempt : ℤ) < retries := by push_cast at hle ⊢; omega
        rw [if_pos ⟨h5, hlt⟩]
        have ih' := ih (attempt + 1) f
          (fun i hi => by
            have := hover (i + 1) (by omega)
            rwa [show attempt + (i + 1) = attempt + 1 + i by omega] at this)
          (by rwa [show attempt + 1 + k = attempt + (k + 1) by omega])
          (by push_cast at hle ⊢; omega)
          (by omega)
        refine ⟨ih'.1, ?_, ?_⟩
        · have htail := ih'.2.1
          simp only [sleepsOf, List.filterMap_cons] at htail ⊢
          rw [htail, List.range_succ_eq_map, List.map_cons, List.map_map,
            List.cons.injEq]
          constructor
          · norm_num
          · refine List.map_congr_left fun i hi => ?_
            simp only [Function.comp, Function.comp_apply]
            congr 1
            omega
        · have htail := ih'.2.2
          simp [attemptsOf, List.countP_cons, isAdmitEv] at htail ⊢
          omega

/-- Claim C3: with retry budget `retries = N` at most `N + 1` attempts are
made (first conjunct, for every script); and on a script of `N` overload
(status ≥ 500) responses followed by one success, exactly `N` backoff
sleeps occur, with durations `2^attempt` seconds (1, 2, 4, ...), the final
parsed body is returned, and exactly `N + 1` attempts are made. -/
theorem C3_retry_budget_and_backoff :
    (∀ (retries : ℤ) (script : ℕ → TransportResult),
        attemptsOf (execute retries script).1 ≤ (retries + 1).toNat) ∧
    (∀ (N : ℕ) (script : ℕ → TransportResult) (body : Body) (t : String),
        (∀ i, i < N → isOverloadB (script i) = true) →
        script N = TransportResult.resp ⟨some 200, t, some body⟩ →
        body.errors = none →
        (execute (N : ℤ) script).2 = Except.ok body ∧
        sleepsOf (execute (N : ℤ) script).1 = (List.range N).map (fun i => 2 ^ i) ∧
        attemptsOf (execute (N : ℤ) script).1 = N + 1) := by
  constructor
  · intro retries script
    exact attemptsOf_executeFrom_le retries script _ 0
  · intro N script body t hover hsucc hb
    have htn : ((N : ℤ) + 1).toNat = N + 1 := by omega
    rw [execute, htn]
    have h := executeFrom_overload_ok (N : ℤ) script body t hb N 0 (N + 1)
      (fun i hi => by simpa using hover i hi)
      (by simpa using hsucc) (by omega) (by omega)
    simpa using h

/-- Witness for C3: one 500 response then a 200 gives exactly one backoff
sleep of 1 second, two attempts, and the success body. -/
theorem C3_retry_budget_and_backoff_witness :
    (execute ((1 : ℕ) : ℤ) c3Script).2 = Except.ok c3Body ∧
    sleepsOf (execute ((1 : ℕ) : ℤ) c3Script).1 = (List.range 1).map (fun i => 2 ^ i) ∧
    attemptsOf (execute ((1 : ℕ) : ℤ) c3Script).1 = 1 + 1 :=
  C3_retry_budget_and_backoff.2 1 c3Script c3Body "" (by decide) (by decide) rfl


/-! Claim C5: the restore rate is strictly positive in every reachable
state. -/

theorem after_response_none_restore_rate (s : ThrottleController)
    (cost : Option ℤ) (now : ℚ) :
    (after_response s none cost now).restore_rate = s.restore_rate := by
  cases cost <;> rfl

theorem after_response_restore_rate (s : ThrottleController) (t : ThrottleStatus)
    (cost : Option ℤ) (now : ℚ) :
    (after_response s (some t) cost now).restore_rate =
      (match t.restoreRate with
       | some rr => if 0 < rr then rr else s.restore_rate
       | none => s.restore_rate) := by
  rcases t with ⟨ca, rr, ma⟩
  cases ca <;> cases rr <;> cases ma <;> cases cost <;>
    (simp only [after_response]) <;> (try split) <;> rfl

theorem ThStep_restore_rate_pos {s s' : ThrottleController} (h : ThStep s s')
    (hp : 0 < s.restore_rate) : 0 < s'.restore_rate := by
  cases h with
  | refill now => rw [refill_restore_rate]; exact hp
  | settle ts cost now =>
    cases ts with
    | none => rw [after_response_none_restore_rate]; exact hp
    | some t =>
      rw [after_response_restore_rate]
      cases hrr : t.restoreRate with
      | none => exact hp
      | some rr =>
        dsimp only
        split
        · assumption
        · exact hp

/-- Claim C5: the restore rate is strictly positive in every reachable
state: construction with a rate ≤ 0 is rejected with a `ValueError`;
every state reachable from a successful construction keeps a positive
rate; and a settle reporting a positive rate always replaces the prior
rate while a reported rate ≤ 0 leaves it exactly unchanged. -/
theorem C5_restore_rate_positive :
    (∀ available restore_rate max_available last_update : ℚ, restore_rate ≤ 0 →
        mkThrottleController available restore_rate max_available last_update =
          Except.error "restore_rate must be positive") ∧
    (∀ (available restore_rate max_available last_update : ℚ)
        (s : ThrottleController),
        mkThrottleController available restore_rate max_available last_update =
          Except.ok s →
        ∀ s', ThReach s s' → 0 < s'.restore_rate) ∧
    (∀ (s : ThrottleController) (t : ThrottleStatus) (cost : Option ℤ) (now rr : ℚ),
        t.restoreRate = some rr →
        (0 < rr → (after_response s (some t) cost now).restore_rate = rr) ∧
        (rr ≤ 0 → (after_response s (some t) cost now).restore_rate = s.restore_rate)) := by
  refine ⟨?_, ?_, ?_⟩
  · intro av rr ma lu h
    rw [mkThrottleController, if_pos h]
  · intro av rr ma lu s hok s' hreach
    have hpos : 0 < s.restore_rate := by
      rw [mkThrottleController] at hok
      by_cases hrr : rr ≤ 0
      · rw [if_pos hrr] at hok; cases hok
      · rw [if_neg hrr] at hok
        injection hok with h
        subst h
        exact lt_of_not_le hrr
    have hreach' : Relation.ReflTransGen ThStep s s' := hreach
    clear hreach
    induction hreach' with
    | refl => exact hpos
    | tail hab hbc ih => exact ThStep_restore_rate_pos hbc ih
  · intro s t cost now rr hrr
    rw [after_response_restore_rate, hrr]
    constructor
    · intro hpos
      dsimp only
      rw [if_pos hpos]
    · intro hneg
      dsimp only
      rw [if_neg (not_lt.mpr hneg)]

/-- Witness for C5: a zero rate is rejected at construction; a settle on a
freshly constructed controller keeps the rate positive; a reported rate of
50 replaces the prior 100 while a reported rate of -5 keeps it. -/
theorem C5_restore_rate_positive_witness :
    mkThrottleController 1000 0 2000 0 = Except.error "restore_rate must be positive" ∧
    0 < (after_response (defaultController 0)
          (some ⟨some 900, some 50, some 1000⟩) none 1).restore_rate ∧
    (after_response (defaultController 0)
        (some ⟨none, some 50, none⟩) none 1).restore_rate = 50 ∧
    (after_response (defaultController 0)
        (some ⟨none, some (-5), none⟩) none 1).restore_rate =
      (defaultController 0).restore_rate := by
  refine ⟨C5_restore_rate_positive.1 1000 0 2000 0 le_rfl, ?_, ?_, ?_⟩
  · exact C5_restore_rate_positive.2.1 1000 100 2000 0 (defaultController 0)
      (by norm_num [mkThrottleController, defaultController]) _
      (Relation.ReflTransGen.single (ThStep.settle _ _ _ _))
  · exact (C5_restore_rate_positive.2.2 (defaultController 0)
      ⟨none, some 50, none⟩ none 1 50 rfl).1 (by norm_num)
  · exact (C5_restore_rate_positive.2.2 (defaultController 0)
      ⟨none, some (-5), none⟩ none 1 (-5) rfl).2 (by norm_num)


/-! Claim C6: the computed wait duration. -/

theorem admitPass_blocked (s : ThrottleController) (min_bucket : ℤ) (ms now : ℚ)
    (hrr : 0 < s.restore_rate) (s' : ThrottleController) (d : ℚ)
    (h : admitPass s min_bucket ms now = (s', some d)) :
    s' = refill s now ∧ s'.available < targetOf s' min_bucket ∧
    d = pyMax ms ((targetOf s' min_bucket - s'.available) / s'.restore_rate) ∧
    0 < d := by
  simp only [admitPass] at h
  split at h
  · injection h with h1 h2
    cases h2
  · case isFalse hlt =>
    injection h with h1 h2
    injection h2 with h2
    subst h1
    have hrr' : 0 < (refill s now).restore_rate := by
      rw [refill_restore_rate]; exact hrr
    have hav : (refill s now).available < targetOf (refill s now) min_bucket :=
      not_le.mp hlt
    refine ⟨rfl, hav, h2.symm, ?_⟩
    rw [← h2, pyMax_eq_max]
    have hq : 0 < (targetOf (refill s now) min_bucket - (refill s now).available) /
        (refill s now).restore_rate := div_pos (by linarith) hrr'
    exact lt_of_lt_of_le hq (le_max_right _ _)

theorem beforeRequestGo_sleeps_pos (min_bucket : ℤ) (ms : ℚ) :
    ∀ (times : List ℚ) (s : ThrottleController) (acc : List ℚ),
      0 < s.restore_rate → (∀ d ∈ acc, 0 < d) →
      ∀ s' sleeps, beforeRequestGo min_bucket ms times s acc = some (s', sleeps) →
      ∀ d ∈ sleeps, 0 < d := by
  intro times
  induction times with
  | nil =>
    intro s acc _ _ s' sleeps h
    rw [beforeRequestGo] at h
    cases h
  | cons now rest ih =>
    intro s acc hrr hacc s' sleeps h
    rw [beforeRequestGo] at h
    cases hap : admitPass s min_bucket ms now with
    | mk s1 o =>
      rw [hap] at h
      cases o with
      | none =>
        dsimp only at h
        injection h with h1
        injection h1 with h1a h1b
        subst h1b
        exact hacc
      | some d0 =>
        dsimp only at h
        have hb := admitPass_blocked s min_bucket ms now hrr s1 d0 hap
        have hrr1 : 0 < s1.restore_rate := by
          rw [hb.1, refill_restore_rate]; exact hrr
        refine ih s1 (acc ++ [d0]) hrr1 ?_ s' sleeps h
        intro d hd
        rcases List.mem_append.mp hd with hd | hd
        · exact hacc d hd
        · rw [List.mem_singleton] at hd; subst hd; exact hb.2.2.2

/-- Claim C6: on every blocking pass of `before_request` the wait duration
equals `max(minSleep, (target - available) / restoreRate)` (with `minSleep`
its effective clamped value) and is strictly positive — never negative; a
negative configured `minSleep` is replaced by the positive default 1.0,
and the effective minimum sleep is never negative; every sleep recorded by
a terminating `before_request` run is positive. -/
theorem C6_sleep_computation (s : ThrottleController) (min_bucket : ℤ)
    (min_sleep now : ℚ) (hrr : 0 < s.restore_rate) :
    (min_sleep < 0 → effMinSleep min_sleep = 1) ∧
    0 ≤ effMinSleep min_sleep ∧
    (∀ s' d, admitPass s min_bucket (effMinSleep min_sleep) now = (s', some d) →
      d = pyMax (effMinSleep min_sleep)
            ((targetOf s' min_bucket - s'.available) / s'.restore_rate) ∧ 0 < d) ∧
    (∀ times s' sleeps,
      before_request s min_bucket min_sleep times = some (s', sleeps) →
      ∀ d ∈ sleeps, 0 < d) := by
  refine ⟨?_, ?_, ?_, ?_⟩
  · intro h; rw [effMinSleep, if_pos h]
  · rw [effMinSleep]
    split
    · norm_num
    · case isFalse h => exact not_lt.mp h
  · intro s' d h
    have hb := admitPass_blocked s min_bucket (effMinSleep min_sleep) now hrr s' d h
    exact ⟨hb.2.2.1, hb.2.2.2⟩
  · intro times s' sleeps h
    rw [before_request] at h
    exact beforeRequestGo_sleeps_pos min_bucket (effMinSleep min_sleep) times s []
      hrr (by intro d hd; cases hd) s' sleeps h

/-- Witness for C6 on the spec scenario `available=25, restoreRate=1000,
minBucket=50` with a configured `min_sleep = -1`: the clamp yields 1, the
single blocking pass computes the sleep 1 (the clamp dominates the deficit
25/1000), and the recorded sleep of a terminating run is positive. -/
theorem C6_sleep_computation_witness :
    effMinSleep (-1) = 1 ∧
    ((1 : ℚ) = pyMax (effMinSleep (-1))
        ((targetOf c6State 50 - c6State.available) / c6State.restore_rate) ∧
      (0 : ℚ) < 1) ∧
    (before_request c6State 50 (-1) [0, 1] =
      some (⟨1025, 1000, 2000, 1, 0, 0⟩, [1]) ∧ (0 : ℚ) < 1) := by
  have H := C6_sleep_computation c6State 50 (-1) 0 (by norm_num [c6State])
  have hrun : before_request c6State 50 (-1) [0, 1] =
      some ((⟨1025, 1000, 2000, 1, 0, 0⟩ : ThrottleController), [1]) := by
    norm_num [before_request, beforeRequestGo, admitPass, refill, targetOf, avgCost,
      pyMax, pyMin, effMinSleep, c6State]
  refine ⟨H.1 (by norm_num), ?_, hrun, ?_⟩
  · refine ⟨(H.2.2.1 c6State 1 ?_).1, by norm_num⟩
    norm_num [admitPass, refill, targetOf, avgCost, pyMax, pyMin, effMinSleep, c6State]
  · exact H.2.2.2 [0, 1] ⟨1025, 1000, 2000, 1, 0, 0⟩ [1] hrun 1 (by simp)


/-! Claim C2: the at-rest bucket invariant. -/

/-- Counterexample to C2: from the default construction (which satisfies
the invariant) a single `after_response` whose snapshot reports only
`maximumAvailable = 500` leaves `available = 1000 > max_available = 500`,
so the invariant does not hold after an arbitrary settle. -/
theorem C2_counterexample :
    bucketInv (defaultController 0) ∧ ¬bucketInv c2Broken := by
  constructor
  · exact ⟨by norm_num [defaultController], by norm_num [defaultController]⟩
  · intro hinv
    have h2 := hinv.2
    norm_num [c2Broken, after_response, defaultController] at h2

theorem bucketInv_refill (s : ThrottleController) (now : ℚ) (h : bucketInv s) :
    bucketInv (refill s now) := by
  rcases h with ⟨h0, h1⟩
  simp only [refill]
  split
  · case isTrue he =>
    refine ⟨?_, ?_⟩
    · show (0 : ℚ) ≤ pyMin s.max_available
        (s.available + (now - s.last_update) * pyMax s.restore_rate 0)
      rw [pyMin_eq_min]
      refine le_min (le_trans h0 h1) ?_
      have hnn : 0 ≤ (now - s.last_update) * pyMax s.restore_rate 0 := by
        apply mul_nonneg (le_of_lt he)
        rw [pyMax_eq_max]
        exact le_max_right _ _
      linarith
    · show pyMin s.max_available
        (s.available + (now - s.last_update) * pyMax s.restore_rate 0) ≤ s.max_available
      rw [pyMin_eq_min]
      exact min_le_left _ _
  · exact ⟨h0, h1⟩

theorem bucketInv_settle (s : ThrottleController) (ts : Option ThrottleStatus)
    (cost : Option ℤ) (now : ℚ) (hg : ∀ t, ts = some t → GoodStatus t)
    (h : bucketInv s) : bucketInv (after_response s ts cost now) := by
  cases ts with
  | none => cases cost <;> exact h
  | some t =>
    have hgt := hg t rfl
    rcases t with ⟨ca, rr, ma⟩
    rcases hgt with ⟨hca, hma⟩ | ⟨a, m, hca, hma, ha, ham⟩
    · dsimp only at hca hma
      subst hca
      subst hma
      cases rr with
      | none => cases cost <;> exact h
      | some rrv =>
        cases cost <;> (simp only [after_response]; split) <;> exact h
    · dsimp only at hca hma
      subst hca
      subst hma
      cases rr with
      | none => cases cost <;> exact ⟨ha, ham⟩
      | some rrv =>
        cases cost <;> (simp only [after_response]; split) <;> exact ⟨ha, ham⟩

/-- Claim C2 (amended): `admit`/refill always preserves
`0 ≤ available ≤ maxAvailable`, and every state reachable from one
satisfying the invariant stays inside it as long as every settle snapshot
is consistent — it reports `currentlyAvailable` and `maximumAvailable`
together with `0 ≤ currentlyAvailable ≤ maximumAvailable`, or reports
neither; a settle with a partial or out-of-range snapshot can break the
invariant (see the counterexample). -/
theorem C2_bucket_invariant (s s' : ThrottleController) (h0 : bucketInv s)
    (h : GoodReach s s') : bucketInv s' := by
  have h' : Relation.ReflTransGen GoodStep s s' := h
  clear h
  induction h' with
  | refl => exact h0
  | tail hab hbc ih =>
    cases hbc with
    | refill now => exact bucketInv_refill _ _ ih
    | settle ts cost now hg => exact bucketInv_settle _ _ _ _ hg ih

/-- Witness for C2 (amended): the spec round-trip snapshot
`{currentlyAvailable: 900, restoreRate: 50, maximumAvailable: 1000}`
applied to the default controller keeps the invariant. -/
theorem C2_bucket_invariant_witness :
    bucketInv (after_response (defaultController 0)
      (some ⟨some 900, some 50, some 1000⟩) none 1) := by
  refine C2_bucket_invariant (defaultController 0) _
    ⟨by norm_num [defaultController], by norm_num [defaultController]⟩
    (Relation.ReflTransGen.single (GoodStep.settle _ _ _ _ ?_))
  intro t ht
  injection ht with ht
  subst ht
  right
  exact ⟨900, 1000, rfl, rfl, by norm_num, by norm_num⟩


/-! Claim C1: the admission threshold has no high-cost component. -/

/-- Claim C1 evaluated on the code: after the two settles of
`test_high_cost_not_dropped_by_light_request` (costs 450 then 50) the
state retains only the counters `total_calls = 2`, `total_cost = 500`; at
`available = 449, restore_rate = 100` the admission threshold for
`min_bucket = 50` is the running average 250 alone — the largest settled
cost 450 contributes nothing — and `before_request` admits immediately
with no sleep and the state unchanged, while the repository test asserts a
retained `high_cost == 450` and a blocking wait. -/
theorem C1_threshold_evaluation :
    c1Counters.total_calls = 2 ∧ c1Counters.total_cost = 500 ∧
    targetOf c1State 50 = 250 ∧
    before_request c1State 50 0 [0] = some (c1State, []) := by
  refine ⟨rfl, rfl, ?_, ?_⟩
  · norm_num [targetOf, avgCost, c1State, pyMax]
  · norm_num [before_request, beforeRequestGo, admitPass, refill, targetOf, avgCost,
      pyMax, pyMin, effMinSleep, c1State]

/-! Claim C9: waiter release on settle. -/

/-- Claim C9 evaluated on the code: in the scenario of
`test_parallel_waiters_only_one_passes` (two waiters needing
`min_bucket = 50`, bucket at 0, one settle reporting
`currentlyAvailable = 50`), the first waiter is admitted immediately and
leaves the state unchanged — admission consumes no budget — so the second
waiter re-checking the very same state is admitted as well: a single
settle notification supplying budget for one releases both waiters, while
the test asserts exactly one passes. -/
theorem C9_settle_releases_both_waiters :
    c9Settled.available = 50 ∧
    before_request c9Settled 50 0 [0] = some (c9After, []) ∧
    c9After = c9Settled ∧
    before_request c9After 50 0 [0] = some (c9After, []) := by
  have hsettled : c9Settled = (⟨50, 1, 2000, 0, 0, 0⟩ : ThrottleController) := by
    norm_num [c9Settled, c9Start, after_response]
  have hrun : before_request c9Settled 50 0 [0] = some (c9Settled, []) := by
    rw [hsettled]
    norm_num [before_request, beforeRequestGo, admitPass, refill, targetOf, avgCost,
      pyMax, pyMin, effMinSleep]
  have hafter : c9After = c9Settled := by
    rw [c9After, hrun, Option.getD_some]
  refine ⟨by rw [hsettled], by rw [hafter]; exact hrun, hafter, by rw [hafter]; exact hrun⟩

end ShopifyGQL
